import Mathlib

/-!
Verification of the parallel-deck alignment engine
(`app/services/alignment.py` and `app/services/dictionary.py`).

The Python functions are shallowly embedded as Lean functions:

* Python `float` arithmetic is idealised as exact rational arithmetic (`ℚ`);
  every constant in the source (`0.2`, `0.3`, `0.6`, `0.7`, `0.9`, weights)
  is an exact rational, so no rounding questions arise in the statements.
* Python strings are Lean `String`s; the handful of string operations the
  source uses (`str.split`, `str.strip`, `str.lower`, substring tests,
  the two regexes `\d+` and `^[\-\•\*\d]+\.?\s`) are implemented below as
  structurally recursive functions on `List Char`.  ASCII case folding and
  ASCII digits model Python's Unicode-aware versions; all texts the claims
  exercise are covered exactly by this model.
* The LLM transport (`call_llm`) performs HTTP I/O; it is abstracted as an
  `Option String`-valued oracle parameter: `none` models "unconfigured or
  transport failure" (the source returns `None` in exactly those cases),
  `some r` models a successful completion whose stripped body is `r`.
  Since the real response can only depend on the prompt, which is a pure
  function of the arguments shown, quantifying over all such oracle
  functions covers every possible oracle behaviour.
* Python dicts keyed by slide number are association lists
  `List (ℕ × List String)`; iteration over `sorted(d.keys())` with lookup
  is modelled literally (sort the key list, look each key up).
-/

namespace Alignment

/-- Whitespace test modelling Python's `str.split()` / `strip()` / `\s`
(space, tab, newline, carriage return, vertical tab, form feed). -/
def isSpaceChar (c : Char) : Bool :=
  c == ' ' || c == '\t' || c == '\n' || c == '\r' || c == '\x0b' || c == '\x0c'

/-- Accumulator-based splitter behind `splitWords`. -/
def splitWordsAux : List Char → List Char → List (List Char)
  | [], acc => if acc = [] then [] else [acc.reverse]
  | c :: rest, acc =>
    if isSpaceChar c then
      if acc = [] then splitWordsAux rest []
      else acc.reverse :: splitWordsAux rest []
    else splitWordsAux rest (c :: acc)

/-- Python `s.split()`: maximal runs of non-whitespace characters. -/
def splitWords (s : List Char) : List (List Char) :=
  splitWordsAux s []

/-- `len(t.split())` for a text `t`. -/
def wordCount (t : String) : ℕ :=
  (splitWords t.toList).length

/-- Characters admitted by the bullet regex class `[\-\•\*\d]`. -/
def isBulletChar (c : Char) : Bool :=
  c == '-' || c == '•' || c == '*' || c.isDigit

/-- `re.match(r'^[\-\•\*\d]+\.?\s', t)`: one or more bullet-class
characters, an optional dot, then a whitespace character.  (The regex is
deterministic: the class, `'.'` and `\s` are pairwise disjoint, so greedy
matching needs no backtracking.) -/
def bulletMatch (s : List Char) : Bool :=
  let run := s.takeWhile isBulletChar
  let rest := s.dropWhile isBulletChar
  !run.isEmpty &&
    (match rest with
     | '.' :: d :: _ => isSpaceChar d
     | d :: _ => isSpaceChar d
     | [] => false)

/-- `re.search(r'\d+', t)` as a Boolean: the text contains a digit. -/
def hasDigit (t : String) : Bool :=
  t.toList.any Char.isDigit

/-- Python `s.strip()`. -/
def trimChars (s : List Char) : List Char :=
  ((s.dropWhile isSpaceChar).reverse.dropWhile isSpaceChar).reverse

/-- Substring test: Python `needle in hay` on strings. -/
def containsSub : List Char → List Char → Bool
  | needle, [] => needle.isEmpty
  | needle, c :: rest => needle.isPrefixOf (c :: rest) || containsSub needle rest

/-- Split at the first occurrence of `sep`: returns the part before it and
the part after it, or `none` when `sep` does not occur.  Used to model
`s.split(sep)[0]` and `s.split(sep)[1]`. -/
def breakOnSub (sep : List Char) : List Char → Option (List Char × List Char)
  | [] => none
  | c :: rest =>
    if sep.isPrefixOf (c :: rest) then some ([], (c :: rest).drop sep.length)
    else (breakOnSub sep rest).map (fun p => (c :: p.1, p.2))

/-- The suffix after the last occurrence of `sep`, or `none` when `sep`
does not occur.  Models `s.split(sep)[-1]`. -/
def afterLastSub (sep : List Char) : List Char → Option (List Char)
  | [] => none
  | c :: rest =>
    match afterLastSub sep rest with
    | some r => some r
    | none =>
      if sep.isPrefixOf (c :: rest) then some ((c :: rest).drop sep.length)
      else none

/-- Python `s.split(c)` for a single-character separator (keeps empty
parts, like Python). -/
def splitOnChar (c : Char) : List Char → List (List Char)
  | [] => [[]]
  | x :: xs =>
    let r := splitOnChar c xs
    if x = c then [] :: r
    else (x :: r.headD []) :: r.tail

/-- First maximal digit run of a string, as in `re.search(r'\d+', s)`;
`none` models the `AttributeError` path when no digit occurs. -/
def firstDigitRun : List Char → Option (List Char)
  | [] => none
  | c :: rest =>
    if c.isDigit then some (c :: rest.takeWhile Char.isDigit)
    else firstDigitRun rest

/-- `int(...)` on a digit run. -/
def digitsToNat (ds : List Char) : ℕ :=
  ds.foldl (fun acc d => 10 * acc + (d.toNat - '0'.toNat)) 0

/-- Python `s.lower()` (ASCII model). -/
def lowerChars (s : List Char) : List Char :=
  s.map Char.toLower

/-- Python `s.replace(" ", "")`. -/
def removeSpaces (s : List Char) : List Char :=
  s.filter (fun c => !(c == ' '))

/-- `get_slide_fingerprint`'s result: either the distinguished
`{"empty": True}` dictionary or the full feature record. -/
inductive Fingerprint where
  | empty : Fingerprint
  | mk (text_count total_chars total_words : ℕ)
       (has_numbers has_bullets : Bool)
       (short_texts medium_texts long_texts : ℕ) : Fingerprint
deriving DecidableEq, Repr

/-- `get_slide_fingerprint(texts)` (alignment.py lines 65-99). -/
def get_slide_fingerprint (texts : List String) : Fingerprint :=
  if texts = [] then .empty
  else
    .mk texts.length
      ((texts.map (fun t => t.toList.length)).sum)
      ((texts.map wordCount).sum)
      (texts.any hasDigit)
      (texts.any (fun t => bulletMatch t.toList))
      ((texts.filter (fun t => wordCount t ≤ 5)).length)
      ((texts.filter (fun t => 5 < wordCount t && wordCount t ≤ 20)).length)
      ((texts.filter (fun t => 20 < wordCount t)).length)

/-- Text-count signal of `fingerprint_similarity` (weight 3). -/
def text_count_score (c1 c2 : ℕ) : ℚ :=
  let count_diff := ((c1 : ℤ) - (c2 : ℤ)).natAbs
  if count_diff = 0 then 3
  else if count_diff ≤ 2 then 2
  else if count_diff ≤ 5 then 1
  else 0

/-- Total-words signal of `fingerprint_similarity` (weight 2). -/
def total_words_score (w1 w2 : ℕ) : ℚ :=
  if max w1 w2 > 0 then 2 * ((min w1 w2 : ℚ) / (max w1 w2 : ℚ))
  else 0

/-- Boolean-flag signal of `fingerprint_similarity` (weight 1), used for
`has_numbers` and `has_bullets`. -/
def flag_score (x y : Bool) : ℚ :=
  if x = y then 1 else 0

/-- Length-distribution signal of `fingerprint_similarity` (weight 2). -/
def length_dist_score (s1 m1 l1 s2 m2 l2 : ℕ) : ℚ :=
  let dist_match : ℚ :=
    (if ((s1 : ℤ) - (s2 : ℤ)).natAbs ≤ 1 then 1 else 0)
    + (if ((m1 : ℤ) - (m2 : ℤ)).natAbs ≤ 1 then 1 else 0)
    + (if ((l1 : ℤ) - (l2 : ℤ)).natAbs ≤ 1 then 1 else 0)
  (dist_match / 3) * 2

/-- `fingerprint_similarity(fp1, fp2)` (alignment.py lines 102-148): the
five weighted signals accumulated in source order, divided by the
accumulated weight total `3+2+1+1+2 = 9`. -/
def fingerprint_similarity : Fingerprint → Fingerprint → ℚ
  | .empty, _ => 0
  | .mk .., .empty => 0
  | .mk c1 _ w1 n1 b1 s1 m1 l1, .mk c2 _ w2 n2 b2 s2 m2 l2 =>
    let score := text_count_score c1 c2 + total_words_score w1 w2
      + flag_score n1 n2 + flag_score b1 b2
      + length_dist_score s1 m1 l1 s2 m2 l2
    let max_score : ℚ := 3 + 2 + 1 + 1 + 2
    if max_score > 0 then score / max_score else 0

/-- The Similarity Scorer formula exactly as the specification words it
(spec §4.2): a weighted sum of five signals divided by 9, with
phrase-count closeness worth 3 (3 on exact count match, 2 when the count
difference is ≤2, 1 when ≤5, else 0), word-count ratio worth 2
(2·min(words)/max(words), 0 when both totals are zero), numeral-flag
equality worth 1, bullet-flag equality worth 1, and length-histogram
closeness worth 2 (2·(buckets whose absolute difference is ≤1)/3).
Stated over non-empty fingerprints; on empty inputs it returns 0. -/
def fingerprint_similarity_spec : Fingerprint → Fingerprint → ℚ
  | .empty, _ => 0
  | .mk .., .empty => 0
  | .mk c1 _ w1 n1 b1 s1 m1 l1, .mk c2 _ w2 n2 b2 s2 m2 l2 =>
    let phrase_count_closeness : ℚ :=
      if c1 = c2 then 3
      else if ((c1 : ℤ) - (c2 : ℤ)).natAbs ≤ 2 then 2
      else if ((c1 : ℤ) - (c2 : ℤ)).natAbs ≤ 5 then 1
      else 0
    let word_count_signal : ℚ :=
      if w1 = 0 ∧ w2 = 0 then 0
      else 2 * ((min w1 w2 : ℚ) / (max w1 w2 : ℚ))
    let numeral_flag : ℚ := if n1 = n2 then 1 else 0
    let bullet_flag : ℚ := if b1 = b2 then 1 else 0
    let bucket_hits : ℚ :=
      (if ((s1 : ℤ) - (s2 : ℤ)).natAbs ≤ 1 then 1 else 0)
      + (if ((m1 : ℤ) - (m2 : ℤ)).natAbs ≤ 1 then 1 else 0)
      + (if ((l1 : ℤ) - (l2 : ℤ)).natAbs ≤ 1 then 1 else 0)
    let hist_closeness : ℚ := 2 * (bucket_hits / 3)
    (phrase_count_closeness + word_count_signal + numeral_flag + bullet_flag
      + hist_closeness) / 9

/-- The oracle abstraction for `validate_slide_correspondence`: the result
of `call_llm` on the slide-correspondence prompts, which are a pure
function of the two slide numbers and the two phrase lists (the prompt
shows only the first ten phrases of each side, but that is itself a pure
function of the arguments, so this type covers every oracle behaviour).
`none` models an unconfigured API or any transport failure. -/
def SlideOracle : Type :=
  ℕ → List String → ℕ → List String → Option String

/-- The `if not result` fallback block of `validate_slide_correspondence`
(alignment.py lines 281-289): a pure fingerprint-similarity decision. -/
def slideFallback (en_texts ar_texts : List String) : Bool × ℚ × String :=
  let en_fp := get_slide_fingerprint en_texts
  let ar_fp := get_slide_fingerprint ar_texts
  let fp_sim := fingerprint_similarity en_fp ar_fp
  if fp_sim ≥ 6/10 then (true, 5/10, "Similar structure (fingerprint fallback)")
  else (false, 2/10, "Different structure (fingerprint fallback)")

/-- `validate_slide_correspondence` (alignment.py lines 243-303).  The
keyword scans mirror the source exactly, including its dead first
disjuncts (`"MATCH: yes" in result.lower()` can never hold, because the
needle contains upper-case letters and the haystack none). -/
def validate_slide_correspondence (oracle : SlideOracle)
    (en_slide_num : ℕ) (en_texts : List String)
    (ar_slide_num : ℕ) (ar_texts : List String) : Bool × ℚ × String :=
  match oracle en_slide_num en_texts ar_slide_num ar_texts with
  | none => slideFallback en_texts ar_texts
  | some result =>
    if result = "" then slideFallback en_texts ar_texts
    else
      let lr := lowerChars result.toList
      let lrns := removeSpaces lr
      let is_match := containsSub "MATCH: yes".toList lr
        || containsSub "match:yes".toList lrns
      let confidence : ℚ :=
        if containsSub "CONFIDENCE: high".toList lr
            || containsSub "confidence:high".toList lrns then 9/10
        else if containsSub "CONFIDENCE: medium".toList lr
            || containsSub "confidence:medium".toList lrns then 6/10
        else if containsSub "CONFIDENCE: low".toList lr
            || containsSub "confidence:low".toList lrns then 3/10
        else 5/10
      let reason :=
        if containsSub "REASON:".toList result.toList then
          String.mk (trimChars ((afterLastSub "REASON:".toList result.toList).getD result.toList))
        else result
      (is_match, confidence, reason)

/-- One committed slide mapping (the dictionaries appended to `mappings`
in `find_best_slide_matches`). -/
structure SlideMapping where
  en_slide : ℕ
  ar_slide : ℕ
  confidence : ℚ
  en_texts : List String
  ar_texts : List String
deriving Repr

/-- One candidate dictionary of the scoring loop in
`find_best_slide_matches` (alignment.py lines 203-208). -/
structure SlideCandidate where
  ar_num : ℕ
  fp_sim : ℚ
  position_diff : ℚ
  combined_score : ℚ
deriving Repr

/-- Ascending insertion used by `sortAsc`. -/
def insertAsc (x : ℕ) : List ℕ → List ℕ
  | [] => [x]
  | y :: ys => if x ≤ y then x :: y :: ys else y :: insertAsc x ys

/-- Python `sorted(...)` on a list of slide numbers. -/
def sortAsc (l : List ℕ) : List ℕ :=
  l.foldr insertAsc []

/-- Stable descending insertion used by `sortDescBy`. -/
def insertDescBy {α : Type} (key : α → ℚ) (x : α) : List α → List α
  | [] => [x]
  | y :: ys => if key y < key x then x :: y :: ys else y :: insertDescBy key x ys

/-- Python `l.sort(key=..., reverse=True)`: the stable descending sort by
a rational key (insertion formulation; stability and the ordering
uniquely determine the result, so this is the same function). -/
def sortDescBy {α : Type} (key : α → ℚ) (l : List α) : List α :=
  l.foldl (fun acc x => insertDescBy key x acc) []

/-- `slides[num]` on the association-list model of a slide dictionary. -/
def lookupSlide (corpus : List (ℕ × List String)) (k : ℕ) : List String :=
  ((corpus.find? (fun p => p.1 == k)).map (fun p => p.2)).getD []

/-- The body of the `for cand in candidates[:3]` loop of
`find_best_slide_matches` (alignment.py lines 217-227), as a fold step
over the accumulator `(best_match, best_confidence)`. -/
def slidePickStep (oracle : SlideOracle) (en_num : ℕ) (en_texts : List String)
    (arabic_slides : List (ℕ × List String))
    (acc : Option ℕ × ℚ) (cand : SlideCandidate) : Option ℕ × ℚ :=
  let r := validate_slide_correspondence oracle en_num en_texts
    cand.ar_num (lookupSlide arabic_slides cand.ar_num)
  if r.1 = true ∧ r.2.1 > acc.2 then (some cand.ar_num, r.2.1) else acc

/-- The candidate-scoring loop of `find_best_slide_matches`
(alignment.py lines 184-208): score every not-yet-used, non-empty Arabic
slide against the current English fingerprint and keep those whose
combined score clears the 0.3 admission threshold. -/
def slideCandidates (arabic_slides : List (ℕ × List String))
    (used_ar_slides : List ℕ) (en_num : ℕ) (en_fp : Fingerprint)
    (max_offset : ℚ) : List SlideCandidate :=
  (sortAsc (arabic_slides.map (fun p => p.1))).filterMap
    (fun ar_num =>
      if ar_num ∈ used_ar_slides then none
      else
        let ar_fp := get_slide_fingerprint (lookupSlide arabic_slides ar_num)
        if ar_fp = .empty then none
        else
          let fp_sim := fingerprint_similarity en_fp ar_fp
          let position_diff : ℚ := (((en_num : ℤ) - (ar_num : ℤ)).natAbs : ℚ)
          let position_bonus := max 0 (1 - position_diff / max_offset) * (2/10)
          let combined_score := fp_sim + position_bonus
          if combined_score > 3/10 then
            some { ar_num := ar_num, fp_sim := fp_sim,
                   position_diff := position_diff,
                   combined_score := combined_score }
          else none)

/-- The commit phase of `find_best_slide_matches` (alignment.py lines
229-238): append a mapping and mark the target slide used when a best
match exists with confidence ≥ 0.3. -/
def slideCommit (english_slides arabic_slides : List (ℕ × List String))
    (en_num : ℕ) (st : List SlideMapping × List ℕ) (best : Option ℕ × ℚ) :
    List SlideMapping × List ℕ :=
  match best with
  | (some best_match, best_confidence) =>
    if best_confidence ≥ 3/10 then
      (st.1 ++ [{ en_slide := en_num, ar_slide := best_match,
                  confidence := best_confidence,
                  en_texts := lookupSlide english_slides en_num,
                  ar_texts := lookupSlide arabic_slides best_match }],
       st.2 ++ [best_match])
    else st
  | (none, _) => st

/-- The body of the `for en_num in en_slide_nums` loop of
`find_best_slide_matches` (alignment.py lines 176-238), as a fold step
over the accumulator `(mappings, used_ar_slides)`. -/
def slideMatchStep (oracle : SlideOracle)
    (english_slides arabic_slides : List (ℕ × List String)) (max_offset : ℚ)
    (st : List SlideMapping × List ℕ) (en_num : ℕ) :
    List SlideMapping × List ℕ :=
  let en_texts := lookupSlide english_slides en_num
  let en_fp := get_slide_fingerprint en_texts
  if en_fp = .empty then st
  else
    let sorted := sortDescBy (fun c => c.combined_score)
      (slideCandidates arabic_slides st.2 en_num en_fp max_offset)
    slideCommit english_slides arabic_slides en_num st
      ((sorted.take 3).foldl (slidePickStep oracle en_num en_texts arabic_slides) (none, 0))

/-- `find_best_slide_matches` (alignment.py lines 155-240).  The upfront
fingerprint dictionaries of the source are pure recomputations of
`get_slide_fingerprint`, inlined here at each use. -/
def find_best_slide_matches (oracle : SlideOracle)
    (english_slides arabic_slides : List (ℕ × List String))
    (max_offset : ℚ) : List SlideMapping :=
  ((sortAsc (english_slides.map (fun p => p.1))).foldl
    (slideMatchStep oracle english_slides arabic_slides max_offset)
    ([], [])).1

/-- One sentence match (the dictionaries produced by
`match_sentences_within_slides` and `match_by_structure`). -/
structure SentenceMatch where
  english : String
  arabic : String
  en_index : ℤ
  ar_index : ℤ
  confidence : ℚ
  match_method : String
deriving Repr

/-- The inner `for ar_idx, ar_text in enumerate(ar_texts)` loop of
`match_by_structure` (alignment.py lines 410-424), as a fold step over
the accumulator `(best_ar_idx, best_score)` (the chosen text is carried
along with its index). -/
def structPickStep (used_ar : List ℕ) (en_words : ℕ)
    (acc : Option (ℕ × String) × ℚ) (q : ℕ × String) :
    Option (ℕ × String) × ℚ :=
  if q.1 ∈ used_ar then acc
  else
    let ar_words := wordCount q.2
    if en_words > 0 ∧ ar_words > 0 then
      let wc_quotient : ℚ := (ar_words : ℚ) / (en_words : ℚ)
      if 4/10 ≤ wc_quotient ∧ wc_quotient ≤ 16/10 then
        let score := 1 - |wc_quotient - 9/10| / (7/10)
        if score > acc.2 then (some q, score) else acc
      else acc
    else acc

/-- The commit phase of `match_by_structure` (alignment.py lines
426-435): append a structural match and claim the target phrase when
the best score clears the 0.3 floor. -/
def structCommit (st : List SentenceMatch × List ℕ) (p : ℕ × String)
    (best : Option (ℕ × String) × ℚ) : List SentenceMatch × List ℕ :=
  match best with
  | (some (ar_idx, ar_text), best_score) =>
    if best_score > 3/10 then
      (st.1 ++ [{ english := p.2, arabic := ar_text,
                  en_index := (p.1 : ℤ), ar_index := (ar_idx : ℤ),
                  confidence := best_score * (4/10),
                  match_method := "structure_fallback" }],
       st.2 ++ [ar_idx])
    else st
  | (none, _) => st

/-- The body of the `for en_idx, en_text in enumerate(en_texts)` loop of
`match_by_structure` (alignment.py lines 404-435), as a fold step over
the accumulator `(matches, used_ar)`. -/
def structMatchStep (ar_texts : List String)
    (st : List SentenceMatch × List ℕ) (p : ℕ × String) :
    List SentenceMatch × List ℕ :=
  structCommit st p
    (ar_texts.enum.foldl (structPickStep st.2 (wordCount p.2)) (none, 0))

/-- `match_by_structure` (alignment.py lines 397-437). -/
def match_by_structure (en_texts ar_texts : List String) : List SentenceMatch :=
  (en_texts.enum.foldl (structMatchStep ar_texts) ([], [])).1

/-- The body of the `for line in result.strip().split("\n")` loop of
`match_sentences_within_slides` (alignment.py lines 359-392): parse one
response line, `none` for every line the source skips (`continue`), i.e.
lines without `->`, lines whose numeral scan fails (the caught
`AttributeError`), and lines with out-of-bounds indices. -/
def parseMatchLine (en_texts ar_texts : List String) (line0 : List Char) :
    Option SentenceMatch :=
  let line := trimChars line0
  if ¬ containsSub "->".toList line then none
  else
    match breakOnSub "->".toList line with
    | none => none
    | some (p0, rest) =>
      let en_part := trimChars p0
      let ar_part := trimChars
        (match breakOnSub "->".toList rest with
         | some (p1, _) => p1
         | none => rest)
      let ar_head := match breakOnSub ['('] ar_part with
        | some (b, _) => b
        | none => ar_part
      match firstDigitRun en_part, firstDigitRun ar_head with
      | some eds, some ads =>
        let en_idx : ℤ := (digitsToNat eds : ℤ) - 1
        let ar_idx : ℤ := (digitsToNat ads : ℤ) - 1
        let lline := lowerChars line
        let confidence : ℚ :=
          if containsSub "high".toList lline then 9/10
          else if containsSub "medium".toList lline then 6/10
          else if containsSub "low".toList lline then 3/10
          else 5/10
        if 0 ≤ en_idx ∧ en_idx < en_texts.length ∧ 0 ≤ ar_idx ∧ ar_idx < ar_texts.length then
          some { english := en_texts.getD en_idx.toNat "",
                 arabic := ar_texts.getD ar_idx.toNat "",
                 en_index := en_idx, ar_index := ar_idx,
                 confidence := confidence, match_method := "llm_semantic" }
        else none
      | _, _ => none

/-- `match_sentences_within_slides` (alignment.py lines 310-394).  `resp`
is the `call_llm` result for the phrase-matching prompt (a pure function
of the two numbered phrase lists); `none` models unconfigured/failed
transport. -/
def match_sentences_within_slides (resp : Option String)
    (en_texts ar_texts : List String) : List SentenceMatch :=
  if en_texts = [] ∨ ar_texts = [] then []
  else
    match resp with
    | none => match_by_structure en_texts ar_texts
    | some result =>
      if result = "" ∨ containsSub "NO_MATCHES".toList result.toList then
        match_by_structure en_texts ar_texts
      else
        (splitOnChar '\n' (trimChars result.toList)).filterMap
          (parseMatchLine en_texts ar_texts)

/-- One candidate pair dictionary (built by `align_with_heuristics`,
mutated by `validate_candidates`).  Absent-key `.get` defaults of the
source are the field defaults here. -/
structure Candidate where
  english : String := ""
  arabic : String := ""
  en_slide : ℕ := 0
  ar_slide : ℕ := 0
  confidence : ℚ := 0
  alignment_method : String := ""
  slide_match_confidence : ℚ := 0
  sentence_match_confidence : ℚ := 0
  validated : Bool := false
  validation_reason : String := ""
deriving Repr

/-- `validate_pair_with_llm` (alignment.py lines 444-481).  `configured`
models `API_URL`/`API_KEY` being present and free of the `"......"`
placeholder; `llm` is the `call_llm` result for the pair-validation
prompt, a pure function of the two texts (consulted only when
configured, since `call_llm` returns `None` otherwise). -/
def validate_pair_with_llm (configured : Bool)
    (llm : String → String → Option String) (english arabic : String) :
    Bool × String :=
  if configured = false then (false, "API not configured")
  else if english = "" ∨ arabic = "" ∨ english = "[UNPAIRED]" ∨ arabic = "[UNPAIRED]" then
    (false, "Invalid text")
  else
    match llm english arabic with
    | none => (false, "Validation unavailable")
    | some result =>
      if result = "" then (false, "Validation unavailable")
      else
        let lr := lowerChars result.toList
        let lrns := removeSpaces lr
        let is_valid := containsSub "VALID: yes".toList lr
          || containsSub "valid:yes".toList lrns
        let reason :=
          if containsSub "REASON:".toList result.toList then
            String.mk (trimChars ((afterLastSub "REASON:".toList result.toList).getD result.toList))
          else result
        (is_valid, reason)

/-- The body of the `for candidate in candidates` loop of
`validate_candidates` (alignment.py lines 486-506); candidates are
processed independently, so the mutating loop is a map of this step. -/
def validateCandidateStep (configured : Bool)
    (llm : String → String → Option String) (candidate : Candidate) : Candidate :=
  if candidate.validated = true then candidate
  else if candidate.english = "" ∨ candidate.arabic = "" then
    { candidate with validated := false, validation_reason := "Empty text" }
  else if candidate.confidence ≥ 7/10 then
    { candidate with validated := true, validation_reason := "High confidence match" }
  else
    let r := validate_pair_with_llm configured llm candidate.english candidate.arabic
    { candidate with validated := r.1, validation_reason := r.2 }

/-- `validate_candidates` (alignment.py lines 484-508). -/
def validate_candidates (configured : Bool)
    (llm : String → String → Option String) (candidates : List Candidate) :
    List Candidate :=
  candidates.map (validateCandidateStep configured llm)

/-- Instrumentation of the source's control flow: how many completion-API
requests processing one candidate issues.  `validate_candidates` reaches
`validate_pair_with_llm` only past its three short-circuits, and
`validate_pair_with_llm` reaches the transport only when configured and
both texts are valid (alignment.py lines 448-452, 486-504). -/
def validateCandidateLlmCalls (configured : Bool) (candidate : Candidate) : ℕ :=
  if candidate.validated = true then 0
  else if candidate.english = "" ∨ candidate.arabic = "" then 0
  else if candidate.confidence ≥ 7/10 then 0
  else if configured = false then 0
  else if candidate.english = "[UNPAIRED]" ∨ candidate.arabic = "[UNPAIRED]" then 0
  else 1

/-- Steps (1)-(4) of `align_with_heuristics` after text extraction
(alignment.py lines 526-560): run the slide matcher, then the sentence
matcher per mapping, combining confidences.  `sentOracle` is the
`call_llm` result for each slide pair's phrase-matching prompt (a pure
function of the two phrase lists). -/
def align_candidates (oracle : SlideOracle)
    (sentOracle : List String → List String → Option String)
    (english_slides arabic_slides : List (ℕ × List String)) : List Candidate :=
  let slide_mappings := find_best_slide_matches oracle english_slides arabic_slides 10
  slide_mappings.foldl
    (fun cands mapping =>
      let sentence_matches := match_sentences_within_slides
        (sentOracle mapping.en_texts mapping.ar_texts) mapping.en_texts mapping.ar_texts
      cands ++ sentence_matches.map (fun m =>
        { english := m.english, arabic := m.arabic,
          en_slide := mapping.en_slide, ar_slide := mapping.ar_slide,
          confidence := mapping.confidence * m.confidence,
          alignment_method := m.match_method,
          slide_match_confidence := mapping.confidence,
          sentence_match_confidence := m.confidence,
          validated := false, validation_reason := "" }))
    []

/-- The everywhere-unavailable slide oracle: `call_llm` returns `None`
(unconfigured API or transport failure) on every judgment. -/
def noSlideOracle : SlideOracle := fun _ _ _ _ => none

/-- The everywhere-unavailable sentence-matching oracle. -/
def noSentOracle : List String → List String → Option String := fun _ _ => none

/-- Source corpus of end-to-end scenario A. -/
def engA : List (ℕ × List String) :=
  [(1, ["Hello world"]), (2, ["Revenue grew 10%"])]

/-- Target corpus of end-to-end scenario A. -/
def araA : List (ℕ × List String) :=
  [(1, ["مرحبا بالعالم"]), (2, ["نمت الإيرادات 10%"])]

/-- Source corpus of end-to-end scenario B: slide 1 has zero phrases. -/
def engB : List (ℕ × List String) :=
  [(1, ([] : List String)), (2, ["Hello world"])]

/-- Target corpus of end-to-end scenario B. -/
def araB : List (ℕ × List String) :=
  [(2, ["مرحبا بالعالم"])]

end Alignment

namespace Dictionary

/-- One dictionary entry (`{"english", "arabic", "validated"}` in
dictionary.py). -/
structure DictEntry where
  english : String
  arabic : String
  validated : Bool
deriving DecidableEq, Repr

/-- Python `s.lower()` on entry keys (ASCII model). -/
def lowerKey (s : String) : String :=
  String.mk (s.toList.map Char.toLower)

/-- The `for e in data["entries"]: ... break` update of
`add_entries_bulk` (dictionary.py lines 77-81): overwrite the first
entry whose lower-cased english matches. -/
def updateFirst (entry : DictEntry) : List DictEntry → List DictEntry
  | [] => []
  | e :: rest =>
    if lowerKey e.english = lowerKey entry.english then
      { e with arabic := entry.arabic, validated := entry.validated } :: rest
    else e :: updateFirst entry rest

/-- The body of the `for entry in entries` loop of `add_entries_bulk`
(dictionary.py lines 70-81), as a fold step over the accumulator
`(data["entries"], existing, added)`. -/
def addEntryStep (st : List DictEntry × List String × ℕ) (entry : DictEntry) :
    List DictEntry × List String × ℕ :=
  if lowerKey entry.english ∉ st.2.1 then
    (st.1 ++ [entry], st.2.1 ++ [lowerKey entry.english], st.2.2 + 1)
  else (updateFirst entry st.1, st.2.1, st.2.2)

/-- `add_entries_bulk` (dictionary.py lines 64-84) on the in-memory entry
list (the JSON file load/save around it is excluded I/O).  Returns the
new entry list and the `added` count.  The `existing` set is modelled as
a list queried by membership. -/
def add_entries_bulk (dataEntries : List DictEntry) (entries : List DictEntry) :
    List DictEntry × ℕ :=
  let final := entries.foldl addEntryStep
    (dataEntries, dataEntries.map (fun e => lowerKey e.english), 0)
  (final.1, final.2.2)

end Dictionary

namespace Alignment

theorem text_count_score_bounds (c1 c2 : ℕ) :
    0 ≤ text_count_score c1 c2 ∧ text_count_score c1 c2 ≤ 3 := by
  simp only [text_count_score]
  split_ifs <;> norm_num

theorem total_words_score_bounds (w1 w2 : ℕ) :
    0 ≤ total_words_score w1 w2 ∧ total_words_score w1 w2 ≤ 2 := by
  simp only [total_words_score]
  split_ifs with h
  · rw [← Nat.cast_min, ← Nat.cast_max]
    have hle : ((min w1 w2 : ℕ) : ℚ) ≤ ((max w1 w2 : ℕ) : ℚ) := by
      exact_mod_cast min_le_max
    have hpos : (0 : ℚ) < ((max w1 w2 : ℕ) : ℚ) := by exact_mod_cast h
    have hdiv : ((min w1 w2 : ℕ) : ℚ) / ((max w1 w2 : ℕ) : ℚ) ≤ 1 :=
      div_le_one_of_le₀ hle (le_of_lt hpos)
    have hnn : (0 : ℚ) ≤ ((min w1 w2 : ℕ) : ℚ) / ((max w1 w2 : ℕ) : ℚ) :=
      div_nonneg (by positivity) (le_of_lt hpos)
    constructor <;> linarith
  · norm_num

theorem flag_score_bounds (x y : Bool) :
    0 ≤ flag_score x y ∧ flag_score x y ≤ 1 := by
  simp only [flag_score]
  split_ifs <;> norm_num

theorem length_dist_score_bounds (s1 m1 l1 s2 m2 l2 : ℕ) :
    0 ≤ length_dist_score s1 m1 l1 s2 m2 l2
    ∧ length_dist_score s1 m1 l1 s2 m2 l2 ≤ 2 := by
  simp only [length_dist_score]
  split_ifs <;> norm_num

theorem fingerprint_similarity_bounds (a b : Fingerprint) :
    0 ≤ fingerprint_similarity a b ∧ fingerprint_similarity a b ≤ 1 := by
  rcases a with _ | ⟨c1, ch1, w1, n1, b1, s1, m1, l1⟩
  · simp [fingerprint_similarity]
  rcases b with _ | ⟨c2, ch2, w2, n2, b2, s2, m2, l2⟩
  · simp [fingerprint_similarity]
  obtain ⟨h1, h1'⟩ := text_count_score_bounds c1 c2
  obtain ⟨h2, h2'⟩ := total_words_score_bounds w1 w2
  obtain ⟨h3, h3'⟩ := flag_score_bounds n1 n2
  obtain ⟨h4, h4'⟩ := flag_score_bounds b1 b2
  obtain ⟨h5, h5'⟩ := length_dist_score_bounds s1 m1 l1 s2 m2 l2
  simp only [fingerprint_similarity]
  rw [if_pos (by norm_num : ((3 : ℚ) + 2 + 1 + 1 + 2) > 0)]
  constructor
  · apply div_nonneg (by linarith) (by norm_num)
  · rw [div_le_one (by norm_num)]
    linarith

theorem text_count_score_self (c : ℕ) : text_count_score c c = 3 := by
  simp [text_count_score]

theorem flag_score_self (x : Bool) : flag_score x x = 1 := by
  simp [flag_score]

theorem length_dist_score_self (s m l : ℕ) : length_dist_score s m l s m l = 2 := by
  simp [length_dist_score]
  norm_num

theorem total_words_score_self (w : ℕ) :
    total_words_score w w = if 0 < w then 2 else 0 := by
  simp only [total_words_score, max_self, min_self]
  by_cases hw : 0 < w
  · have hne : ((w : ℕ) : ℚ) ≠ 0 := by exact_mod_cast Nat.pos_iff_ne_zero.mp hw
    simp [hw, div_self hne]
  · simp [hw]

theorem total_words_score_left_zero (w2 : ℕ) : total_words_score 0 w2 = 0 := by
  simp only [total_words_score]
  split_ifs <;> simp

theorem fingerprint_similarity_self (c ch w : ℕ) (n b : Bool) (s m l : ℕ) :
    fingerprint_similarity (.mk c ch w n b s m l) (.mk c ch w n b s m l)
      = if 0 < w then 1 else 7 / 9 := by
  simp only [fingerprint_similarity, text_count_score_self, flag_score_self,
    length_dist_score_self, total_words_score_self]
  by_cases hw : 0 < w <;> simp [hw] <;> norm_num

/-- C3: for every two non-empty fingerprints `a` and `b`,
`fingerprint_similarity a b` equals the specification's formula: the
weighted sum of the five signals (phrase-count closeness worth 3,
word-count ratio worth 2, numeral-flag equality worth 1, bullet-flag
equality worth 1, length-histogram closeness worth 2) divided by 9. -/
theorem fingerprint_similarity_matches_spec (a b : Fingerprint)
    (ha : a ≠ .empty) (hb : b ≠ .empty) :
    fingerprint_similarity a b = fingerprint_similarity_spec a b := by
  rcases a with _ | ⟨c1, ch1, w1, n1, b1, s1, m1, l1⟩
  · exact absurd rfl ha
  rcases b with _ | ⟨c2, ch2, w2, n2, b2, s2, m2, l2⟩
  · exact absurd rfl hb
  simp only [fingerprint_similarity, fingerprint_similarity_spec,
    text_count_score, total_words_score, flag_score, length_dist_score]
  rw [if_pos (by norm_num : ((3 : ℚ) + 2 + 1 + 1 + 2) > 0)]
  have hcount : (((c1 : ℤ) - (c2 : ℤ)).natAbs = 0) ↔ c1 = c2 := by omega
  by_cases hw : w1 = 0 ∧ w2 = 0
  · have hmax : ¬ (max w1 w2 > 0) := by omega
    simp only [hcount, if_neg hmax, if_pos hw]
    norm_num
    ring
  · have hmax : max w1 w2 > 0 := by omega
    simp only [hcount, if_pos hmax, if_neg hw]
    norm_num
    ring

/-- C3 witness: the formula agreement evaluated at the fingerprints of
`["Hello world"]` and `["نمت الإيرادات 10%"]`. -/
theorem fingerprint_similarity_matches_spec_witness :
    fingerprint_similarity (.mk 1 11 2 false false 1 0 0) (.mk 1 17 3 true false 1 0 0)
      = fingerprint_similarity_spec (.mk 1 11 2 false false 1 0 0) (.mk 1 17 3 true false 1 0 0) :=
  fingerprint_similarity_matches_spec _ _ (by decide) (by decide)

/-- C4: `fingerprint_similarity` always lies in `[0, 1]`; it is `0`
whenever either argument is the empty fingerprint; and for a non-empty
`a`, the self-similarity `fingerprint_similarity a a` is an upper bound
for every comparison against `a`. -/
theorem fingerprint_similarity_bounded_empty_selfmax (a b : Fingerprint) :
    (0 ≤ fingerprint_similarity a b ∧ fingerprint_similarity a b ≤ 1)
    ∧ (a = .empty ∨ b = .empty → fingerprint_similarity a b = 0)
    ∧ (a ≠ .empty → fingerprint_similarity a b ≤ fingerprint_similarity a a) := by
  refine ⟨fingerprint_similarity_bounds a b, ?_, ?_⟩
  · rintro (rfl | rfl)
    · rfl
    · cases a <;> rfl
  · intro ha
    rcases a with _ | ⟨c1, ch1, w1, n1, b1, s1, m1, l1⟩
    · exact absurd rfl ha
    rw [fingerprint_similarity_self]
    rcases b with _ | ⟨c2, ch2, w2, n2, b2, s2, m2, l2⟩
    · have h0 : fingerprint_similarity (.mk c1 ch1 w1 n1 b1 s1 m1 l1) .empty = 0 := rfl
      rw [h0]
      split_ifs <;> norm_num
    by_cases hw : 0 < w1
    · rw [if_pos hw]
      exact (fingerprint_similarity_bounds _ _).2
    · rw [if_neg hw]
      have hw0 : w1 = 0 := by omega
      subst hw0
      obtain ⟨h1, h1'⟩ := text_count_score_bounds c1 c2
      obtain ⟨h3, h3'⟩ := flag_score_bounds n1 n2
      obtain ⟨h4, h4'⟩ := flag_score_bounds b1 b2
      obtain ⟨h5, h5'⟩ := length_dist_score_bounds s1 m1 l1 s2 m2 l2
      simp only [fingerprint_similarity]
      rw [if_pos (by norm_num : ((3 : ℚ) + 2 + 1 + 1 + 2) > 0),
        total_words_score_left_zero]
      rw [show ((3 : ℚ) + 2 + 1 + 1 + 2) = 9 by norm_num]
      rw [show (7 : ℚ) / 9 = 7 / 9 from rfl]
      rw [div_le_div_iff_of_pos_right (by norm_num : (0 : ℚ) < 9)]
      linarith

/-- C4 witness: bounds, the empty rule and self-maximality evaluated at
the fingerprint of `["Hello world"]` against the empty fingerprint. -/
theorem fingerprint_similarity_bounded_empty_selfmax_witness :
    fingerprint_similarity (.mk 1 11 2 false false 1 0 0) .empty = 0
    ∧ fingerprint_similarity (.mk 1 11 2 false false 1 0 0) .empty
        ≤ fingerprint_similarity (.mk 1 11 2 false false 1 0 0) (.mk 1 11 2 false false 1 0 0) := by
  have T := fingerprint_similarity_bounded_empty_selfmax (.mk 1 11 2 false false 1 0 0) .empty
  exact ⟨T.2.1 (Or.inr rfl), T.2.2 (by decide)⟩

/-- C5: whenever `call_llm` returns `None` for the slide-correspondence
prompt, `validate_slide_correspondence` returns exactly
`(True, 0.5, fallback reason)` when the fingerprint similarity of the two
full phrase lists is ≥ 0.6 and `(False, 0.2, fallback reason)` otherwise
(and, being a total function of its inputs, never raises). -/
theorem validate_slide_correspondence_fallback (oracle : SlideOracle)
    (en_slide_num : ℕ) (en_texts : List String)
    (ar_slide_num : ℕ) (ar_texts : List String)
    (h : oracle en_slide_num en_texts ar_slide_num ar_texts = none) :
    validate_slide_correspondence oracle en_slide_num en_texts ar_slide_num ar_texts
      = (if fingerprint_similarity (get_slide_fingerprint en_texts)
              (get_slide_fingerprint ar_texts) ≥ 6/10
         then (true, 5/10, "Similar structure (fingerprint fallback)")
         else (false, 2/10, "Different structure (fingerprint fallback)")) := by
  unfold validate_slide_correspondence
  rw [h]
  rfl

/-- C5 witness: the fallback evaluated on the unconfigured oracle at
slide 1 of scenario A (similarity 1 ≥ 0.6, so `(True, 0.5, …)`). -/
theorem validate_slide_correspondence_fallback_witness :
    validate_slide_correspondence noSlideOracle 1 ["Hello world"] 1 ["مرحبا بالعالم"]
      = (true, 5/10, "Similar structure (fingerprint fallback)") := by
  rw [validate_slide_correspondence_fallback noSlideOracle 1 ["Hello world"] 1
    ["مرحبا بالعالم"] rfl]
  have h1 : get_slide_fingerprint ["Hello world"] = .mk 1 11 2 false false 1 0 0 := by decide
  have h2 : get_slide_fingerprint ["مرحبا بالعالم"] = .mk 1 13 2 false false 1 0 0 := by decide
  rw [h1, h2, if_pos]
  norm_num [fingerprint_similarity, text_count_score, total_words_score,
    flag_score, length_dist_score]

/-- C7 counterexample: a not-yet-validated candidate with non-empty
texts and combined confidence 0.3 < 0.7, processed while the oracle is
unconfigured, is rejected with reason `"API not configured"` — not the
claimed `"validation unavailable"`. -/
theorem validate_candidates_unconfigured_reason_counterexample :
    (validate_candidates false (fun _ _ => none)
      [{ english := "hello", arabic := "مرحبا", confidence := 3/10 }]).map
        (fun c => (c.validated, c.validation_reason))
      = [(false, "API not configured")]
    ∧ "API not configured" ≠ "validation unavailable" := by
  constructor
  · norm_num [validate_candidates, validateCandidateStep, validate_pair_with_llm]
    decide
  · decide

/-- C7 (amended): for every not-yet-validated candidate with non-empty,
non-`"[UNPAIRED]"` texts and combined confidence < 0.7, when the oracle
is unconfigured or the oracle call fails, `validate_candidates` marks
the candidate `validated=false` — with reason `"API not configured"`
when unconfigured and `"Validation unavailable"` when the call fails —
never accepting on absent proof. -/
theorem validate_candidates_conservative (configured : Bool)
    (llm : String → String → Option String) (c : Candidate)
    (hv : c.validated = false) (he : c.english ≠ "") (ha : c.arabic ≠ "")
    (heu : c.english ≠ "[UNPAIRED]") (hau : c.arabic ≠ "[UNPAIRED]")
    (hc : c.confidence < 7/10)
    (hfail : configured = false ∨ llm c.english c.arabic = none) :
    validate_candidates configured llm [c]
      = [{ c with
            validated := false
            validation_reason :=
              if configured = true then "Validation unavailable"
              else "API not configured" }] := by
  unfold validate_candidates validateCandidateStep
  simp only [List.map]
  rw [if_neg (by simp [hv]), if_neg (by simp [he, ha]),
    if_neg (not_le.mpr hc)]
  unfold validate_pair_with_llm
  rcases hfail with hcf | hllm
  · subst hcf
    simp
  · rcases configured with _ | _
    · simp
    · rw [if_neg (by simp), if_neg (by simp [he, ha, heu, hau]), hllm]
      simp

/-- C7 witness: the conservative rejection evaluated on a configured
oracle whose transport fails for the concrete pair ("good", "جيد"). -/
theorem validate_candidates_conservative_witness :
    validate_candidates true (fun _ _ => none)
      [{ english := "good", arabic := "جيد", confidence := 5/10 }]
      = [{ english := "good", arabic := "جيد", confidence := 5/10,
           validated := false, validation_reason := "Validation unavailable" }] := by
  have T := validate_candidates_conservative true (fun _ _ => none)
    { english := "good", arabic := "جيد", confidence := 5/10 }
    rfl (by decide) (by decide) (by decide) (by decide) (by norm_num) (Or.inr rfl)
  simpa using T

/-- C10 counterexample: `validate_candidates` skips candidates already
flagged validated, so a pre-validated candidate with an empty English
side leaves the run still `validated=true` — the claim's universal
"no candidate with an empty side is ever validated=true" fails. -/
theorem validate_candidates_prevalidated_empty_counterexample :
    (validate_candidates true (fun _ _ => none)
      [{ english := "", arabic := "نص", confidence := 9/10, validated := true,
         validation_reason := "prevalidated" }]).map (fun c => c.validated)
      = [true] := by
  norm_num [validate_candidates, validateCandidateStep]

/-- C10 (amended): for every candidate that is not already marked
validated and has an empty English or Arabic field, `validate_candidates`
marks it `validated=false` with reason `"Empty text"` without issuing any
oracle call, even when its combined confidence is ≥ 0.7; consequently no
such candidate leaves the run `validated=true`. -/
theorem validate_candidates_empty_text (configured : Bool)
    (llm : String → String → Option String) (c : Candidate)
    (hv : c.validated = false) (he : c.english = "" ∨ c.arabic = "") :
    validate_candidates configured llm [c]
      = [{ c with validated := false, validation_reason := "Empty text" }]
    ∧ validateCandidateLlmCalls configured c = 0 := by
  constructor
  · unfold validate_candidates validateCandidateStep
    simp only [List.map]
    rw [if_neg (by simp [hv]), if_pos he]
  · unfold validateCandidateLlmCalls
    rw [if_neg (by simp [hv]), if_pos he]

/-- C10 witness: the empty-text rejection evaluated on a configured
oracle and a high-confidence candidate with an empty English side. -/
theorem validate_candidates_empty_text_witness :
    validate_candidates true (fun _ _ => some "VALID: yes")
      [{ english := "", arabic := "نص", confidence := 9/10 }]
      = [{ english := "", arabic := "نص", confidence := 9/10,
           validated := false, validation_reason := "Empty text" }]
    ∧ validateCandidateLlmCalls true
        { english := "", arabic := "نص", confidence := 9/10 } = 0 := by
  have T := validate_candidates_empty_text true (fun _ _ => some "VALID: yes")
    { english := "", arabic := "نص", confidence := 9/10 } rfl (Or.inl rfl)
  simpa using T

end Alignment

namespace Dictionary

theorem updateFirst_map_lowerKey (entry : DictEntry) (l : List DictEntry) :
    (updateFirst entry l).map (fun e => lowerKey e.english)
      = l.map (fun e => lowerKey e.english) := by
  induction l with
  | nil => rfl
  | cons e rest ih =>
    unfold updateFirst
    split_ifs with h
    · simp [h]
    · simp [ih]

theorem addEntryStep_inv (st : List DictEntry × List String × ℕ) (entry : DictEntry)
    (hinv : ∀ x, x ∈ st.2.1 ↔ x ∈ st.1.map (fun e => lowerKey e.english)) :
    (∀ x, x ∈ (addEntryStep st entry).2.1
        ↔ x ∈ (addEntryStep st entry).1.map (fun e => lowerKey e.english))
    ∧ lowerKey entry.english ∈ (addEntryStep st entry).1.map (fun e => lowerKey e.english) := by
  unfold addEntryStep
  by_cases h : lowerKey entry.english ∈ st.2.1
  · rw [if_neg (by simpa using h)]
    constructor
    · intro x
      rw [updateFirst_map_lowerKey]
      exact hinv x
    · rw [updateFirst_map_lowerKey]
      exact (hinv _).mp h
  · rw [if_pos (by simpa using h)]
    constructor
    · intro x
      simp only [List.map_append, List.mem_append, List.map, List.mem_singleton]
      rw [← hinv x]
    · simp

theorem addFold_mono (entries : List DictEntry) :
    ∀ (st : List DictEntry × List String × ℕ) (x : String),
      x ∈ st.1.map (fun e => lowerKey e.english) →
      x ∈ (entries.foldl addEntryStep st).1.map (fun e => lowerKey e.english) := by
  induction entries with
  | nil => exact fun st x hx => hx
  | cons e rest ih =>
    intro st x hx
    apply ih
    unfold addEntryStep
    by_cases h : lowerKey e.english ∈ st.2.1
    · rw [if_neg (by simpa using h), updateFirst_map_lowerKey]
      exact hx
    · rw [if_pos (by simpa using h)]
      simp only [List.map_append, List.mem_append]
      exact Or.inl hx

theorem addFold_inv (entries : List DictEntry) :
    ∀ (st : List DictEntry × List String × ℕ),
      (∀ x, x ∈ st.2.1 ↔ x ∈ st.1.map (fun e => lowerKey e.english)) →
      (∀ x, x ∈ (entries.foldl addEntryStep st).2.1
          ↔ x ∈ (entries.foldl addEntryStep st).1.map (fun e => lowerKey e.english))
      ∧ ∀ e ∈ entries, lowerKey e.english
          ∈ (entries.foldl addEntryStep st).1.map (fun x => lowerKey x.english) := by
  induction entries with
  | nil => exact fun st hinv => ⟨hinv, by simp⟩
  | cons e rest ih =>
    intro st hinv
    obtain ⟨hinv', hmem⟩ := addEntryStep_inv st e hinv
    obtain ⟨hfold, hrest⟩ := ih (addEntryStep st e) hinv'
    refine ⟨hfold, ?_⟩
    intro e' he'
    rcases List.mem_cons.mp he' with rfl | he'
    · exact addFold_mono rest _ _ hmem
    · exact hrest e' he'

theorem addFold_added_zero (entries : List DictEntry) :
    ∀ (st : List DictEntry × List String × ℕ),
      (∀ e ∈ entries, lowerKey e.english ∈ st.2.1) →
      (entries.foldl addEntryStep st).2.2 = st.2.2 := by
  induction entries with
  | nil => exact fun st _ => rfl
  | cons e rest ih =>
    intro st h
    have he := h e (List.mem_cons_self e rest)
    have hstep : addEntryStep st e = (updateFirst e st.1, st.2.1, st.2.2) := by
      unfold addEntryStep
      rw [if_neg (by simpa using he)]
    rw [List.foldl_cons, hstep]
    exact ih _ (fun e' he' => h e' (List.mem_cons_of_mem e he'))

theorem updateFirst_eq_set (entry : DictEntry) (l : List DictEntry)
    (h : lowerKey entry.english ∈ l.map (fun e => lowerKey e.english)) :
    ∃ i, ∃ hi : i < l.length,
      lowerKey (l.get ⟨i, hi⟩).english = lowerKey entry.english
      ∧ updateFirst entry l
          = l.set i { l.get ⟨i, hi⟩ with
              arabic := entry.arabic
              validated := entry.validated } := by
  induction l with
  | nil => simp at h
  | cons e rest ih =>
    by_cases he : lowerKey e.english = lowerKey entry.english
    · refine ⟨0, by simp, by simpa using he, ?_⟩
      unfold updateFirst
      rw [if_pos he]
      rfl
    · have h' : lowerKey entry.english ∈ rest.map (fun x => lowerKey x.english) := by
        rcases List.mem_map.mp h with ⟨x, hx, hxe⟩
        rcases List.mem_cons.mp hx with rfl | hx
        · exact absurd hxe he
        · exact List.mem_map.mpr ⟨x, hx, hxe⟩
      obtain ⟨i, hi, hkey, heq⟩ := ih h'
      refine ⟨i + 1, by simpa using hi, by simpa using hkey, ?_⟩
      unfold updateFirst
      rw [if_neg he, heq]
      rfl

/-- C8: `add_entries_bulk` is idempotent on a repeated batch — the
second identical call inserts nothing (count 0) — and an entry whose
english matches an existing entry case-insensitively overwrites that
entry's `arabic`/`validated` fields in place instead of appending. -/
theorem add_entries_bulk_idempotent_upsert :
    (∀ (dataEntries entries : List DictEntry),
      (add_entries_bulk (add_entries_bulk dataEntries entries).1 entries).2 = 0)
    ∧ (∀ (dataEntries : List DictEntry) (entry : DictEntry),
        lowerKey entry.english ∈ dataEntries.map (fun e => lowerKey e.english) →
        (add_entries_bulk dataEntries [entry]).2 = 0
        ∧ (add_entries_bulk dataEntries [entry]).1.length = dataEntries.length
        ∧ ∃ i, ∃ hi : i < dataEntries.length,
            lowerKey (dataEntries.get ⟨i, hi⟩).english = lowerKey entry.english
            ∧ (add_entries_bulk dataEntries [entry]).1
                = dataEntries.set i { dataEntries.get ⟨i, hi⟩ with
                    arabic := entry.arabic
                    validated := entry.validated }) := by
  constructor
  · intro dataEntries entries
    unfold add_entries_bulk
    apply addFold_added_zero
    intro e he
    simp only
    obtain ⟨_, hall⟩ := addFold_inv entries
      (dataEntries, dataEntries.map (fun x => lowerKey x.english), 0) (by simp)
    exact hall e he
  · intro dataEntries entry h
    have hstep : addEntryStep
        (dataEntries, dataEntries.map (fun e => lowerKey e.english), 0) entry
        = (updateFirst entry dataEntries,
           dataEntries.map (fun e => lowerKey e.english), 0) := by
      unfold addEntryStep
      rw [if_neg (by simpa using h)]
    have hbulk : add_entries_bulk dataEntries [entry]
        = (updateFirst entry dataEntries, 0) := by
      unfold add_entries_bulk
      rw [List.foldl_cons, hstep]
      rfl
    obtain ⟨i, hi, hkey, heq⟩ := updateFirst_eq_set entry dataEntries h
    refine ⟨by rw [hbulk], ?_, i, hi, hkey, ?_⟩
    · rw [hbulk]
      simp only [heq, List.length_set]
    · rw [hbulk]
      exact heq

/-- C8 witness: a dictionary holding `"Hello"` receives the entry
`"HELLO"`: nothing is appended, the existing entry's fields are
overwritten, and re-adding the same batch twice inserts 0. -/
theorem add_entries_bulk_idempotent_upsert_witness :
    (add_entries_bulk
      (add_entries_bulk [⟨"Hello", "x", false⟩] [⟨"HELLO", "مرحبا", true⟩]).1
      [⟨"HELLO", "مرحبا", true⟩]).2 = 0
    ∧ (add_entries_bulk [⟨"Hello", "x", false⟩] [⟨"HELLO", "مرحبا", true⟩]).2 = 0
    ∧ (add_entries_bulk [⟨"Hello", "x", false⟩] [⟨"HELLO", "مرحبا", true⟩]).1.length = 1 := by
  have T := add_entries_bulk_idempotent_upsert
  have h2 := T.2 [⟨"Hello", "x", false⟩] ⟨"HELLO", "مرحبا", true⟩ (by decide)
  exact ⟨T.1 [⟨"Hello", "x", false⟩] [⟨"HELLO", "مرحبا", true⟩], h2.1, h2.2.1⟩

end Dictionary

namespace Alignment

theorem mem_insertDescBy {α : Type} (key : α → ℚ) (x a : α) (l : List α) :
    a ∈ insertDescBy key x l ↔ a = x ∨ a ∈ l := by
  induction l with
  | nil => simp [insertDescBy]
  | cons y ys ih =>
    unfold insertDescBy
    split_ifs
    · simp [List.mem_cons]
      try tauto
    · simp [List.mem_cons, ih]
      try tauto

theorem mem_sortDescBy_fold {α : Type} (key : α → ℚ) (l : List α) :
    ∀ (acc : List α) (a : α),
      a ∈ l.foldl (fun acc x => insertDescBy key x acc) acc ↔ a ∈ acc ∨ a ∈ l := by
  induction l with
  | nil => simp
  | cons x xs ih =>
    intro acc a
    rw [List.foldl_cons, ih, mem_insertDescBy]
    simp [List.mem_cons]
    tauto

theorem mem_sortDescBy {α : Type} (key : α → ℚ) (l : List α) (a : α) :
    a ∈ sortDescBy key l ↔ a ∈ l := by
  unfold sortDescBy
  rw [mem_sortDescBy_fold]
  simp

theorem slidePick_mem (oracle : SlideOracle) (en_num : ℕ) (en_texts : List String)
    (ara : List (ℕ × List String)) (l : List SlideCandidate) :
    ∀ acc : Option ℕ × ℚ,
      (l.foldl (slidePickStep oracle en_num en_texts ara) acc).1 = acc.1
      ∨ ∃ c ∈ l, (l.foldl (slidePickStep oracle en_num en_texts ara) acc).1 = some c.ar_num := by
  induction l with
  | nil =>
    intro acc
    left
    rfl
  | cons c rest ih =>
    intro acc
    rw [List.foldl_cons]
    by_cases hcond :
        (validate_slide_correspondence oracle en_num en_texts c.ar_num
          (lookupSlide ara c.ar_num)).1 = true
        ∧ (validate_slide_correspondence oracle en_num en_texts c.ar_num
          (lookupSlide ara c.ar_num)).2.1 > acc.2
    · have hstep : slidePickStep oracle en_num en_texts ara acc c
          = (some c.ar_num,
             (validate_slide_correspondence oracle en_num en_texts c.ar_num
               (lookupSlide ara c.ar_num)).2.1) := by
        simp only [slidePickStep]
        rw [if_pos hcond]
      rw [hstep]
      rcases ih _ with h | ⟨c', hc', h⟩
      · right
        exact ⟨c, List.mem_cons_self c rest, h⟩
      · right
        exact ⟨c', List.mem_cons_of_mem c hc', h⟩
    · have hstep : slidePickStep oracle en_num en_texts ara acc c = acc := by
        simp only [slidePickStep]
        rw [if_neg hcond]
      rw [hstep]
      rcases ih acc with h | ⟨c', hc', h⟩
      · left
        exact h
      · right
        exact ⟨c', List.mem_cons_of_mem c hc', h⟩

theorem slideCandidates_not_used (ara : List (ℕ × List String)) (used : List ℕ)
    (en_num : ℕ) (en_fp : Fingerprint) (off : ℚ) (c : SlideCandidate)
    (hc : c ∈ slideCandidates ara used en_num en_fp off) : c.ar_num ∉ used := by
  unfold slideCandidates at hc
  rw [List.mem_filterMap] at hc
  obtain ⟨x, hx, hfx⟩ := hc
  dsimp only at hfx
  by_cases hu : x ∈ used
  · rw [if_pos hu] at hfx
    simp at hfx
  · rw [if_neg hu] at hfx
    split_ifs at hfx
    rw [Option.some.injEq] at hfx
    subst hfx
    exact hu

theorem slideCommit_cases (eng ara : List (ℕ × List String)) (en_num : ℕ)
    (st : List SlideMapping × List ℕ) (b : Option ℕ × ℚ) :
    slideCommit eng ara en_num st b = st
    ∨ ∃ ar, b.1 = some ar
        ∧ slideCommit eng ara en_num st b
            = (st.1 ++ [{ en_slide := en_num, ar_slide := ar, confidence := b.2,
                          en_texts := lookupSlide eng en_num,
                          ar_texts := lookupSlide ara ar }], st.2 ++ [ar]) := by
  obtain ⟨b1, b2⟩ := b
  cases b1 with
  | none => left; rfl
  | some ar =>
    by_cases hb : b2 ≥ 3/10
    · right
      refine ⟨ar, rfl, ?_⟩
      show (if b2 ≥ 3/10 then _ else _) = _
      rw [if_pos hb]
    · left
      show (if b2 ≥ 3/10 then _ else _) = _
      rw [if_neg hb]

theorem slideMatchStep_cases (oracle : SlideOracle)
    (eng ara : List (ℕ × List String)) (off : ℚ)
    (st : List SlideMapping × List ℕ) (en_num : ℕ) :
    slideMatchStep oracle eng ara off st en_num = st
    ∨ ∃ ar conf,
        ar ∉ st.2
        ∧ get_slide_fingerprint (lookupSlide eng en_num) ≠ .empty
        ∧ slideMatchStep oracle eng ara off st en_num
            = (st.1 ++ [{ en_slide := en_num, ar_slide := ar, confidence := conf,
                          en_texts := lookupSlide eng en_num,
                          ar_texts := lookupSlide ara ar }], st.2 ++ [ar]) := by
  by_cases hfp : get_slide_fingerprint (lookupSlide eng en_num) = Fingerprint.empty
  · left
    simp only [slideMatchStep]
    rw [if_pos hfp]
  · have hstep : slideMatchStep oracle eng ara off st en_num
        = slideCommit eng ara en_num st
            (((sortDescBy (fun c => c.combined_score)
                (slideCandidates ara st.2 en_num
                  (get_slide_fingerprint (lookupSlide eng en_num)) off)).take 3).foldl
              (slidePickStep oracle en_num (lookupSlide eng en_num) ara) (none, 0)) := by
      simp only [slideMatchStep]
      rw [if_neg hfp]
    rcases slideCommit_cases eng ara en_num st
        (((sortDescBy (fun c => c.combined_score)
            (slideCandidates ara st.2 en_num
              (get_slide_fingerprint (lookupSlide eng en_num)) off)).take 3).foldl
          (slidePickStep oracle en_num (lookupSlide eng en_num) ara) (none, 0))
      with h | ⟨ar, hb, h⟩
    · left
      rw [hstep, h]
    · right
      refine ⟨ar, _, ?_, hfp, by rw [hstep, h]⟩
      rcases slidePick_mem oracle en_num (lookupSlide eng en_num) ara
          ((sortDescBy (fun c => c.combined_score)
            (slideCandidates ara st.2 en_num
              (get_slide_fingerprint (lookupSlide eng en_num)) off)).take 3) (none, 0)
        with hn | ⟨c, hc, hsome⟩
      · rw [hb] at hn
        simp at hn
      · rw [hb] at hsome
        have har : ar = c.ar_num := by
          rw [Option.some.injEq] at hsome
          exact hsome
        subst har
        apply slideCandidates_not_used ara st.2 en_num
          (get_slide_fingerprint (lookupSlide eng en_num)) off c
        have hmem := List.mem_of_mem_take hc
        rw [mem_sortDescBy] at hmem
        exact hmem

theorem slideFold_nodup (oracle : SlideOracle)
    (eng ara : List (ℕ × List String)) (off : ℚ) (nums : List ℕ) :
    ∀ st : List SlideMapping × List ℕ,
      (st.1.map (fun m => m.ar_slide)).Nodup →
      (∀ m ∈ st.1, m.ar_slide ∈ st.2) →
      ((nums.foldl (slideMatchStep oracle eng ara off) st).1.map
        (fun m => m.ar_slide)).Nodup := by
  induction nums with
  | nil => exact fun st h _ => h
  | cons n rest ih =>
    intro st h1 h2
    rw [List.foldl_cons]
    rcases slideMatchStep_cases oracle eng ara off st n with heq | ⟨ar, conf, har, _, heq⟩
    · rw [heq]
      exact ih st h1 h2
    · rw [heq]
      apply ih
      · rw [List.map_append, List.nodup_append]
        refine ⟨h1, by simp, ?_⟩
        intro y hy hz
        rcases List.mem_map.mp hy with ⟨m, hm, rfl⟩
        have hused : m.ar_slide ∈ st.2 := h2 m hm
        simp only [List.map_cons, List.map_nil, List.mem_singleton] at hz
        rw [hz] at hused
        exact har hused
      · intro m hm
        rcases List.mem_append.mp hm with hm | hm
        · exact List.mem_append.mpr (Or.inl (h2 m hm))
        · rw [List.mem_singleton] at hm
          subst hm
          exact List.mem_append.mpr (Or.inr (by simp))

/-- C1: for every pair of input corpora and every oracle behaviour, the
mappings returned by `find_best_slide_matches` never contain two entries
with the same target (Arabic) slide id — the number of distinct target
slide ids equals the number of mappings. -/
theorem find_best_slide_matches_target_injective (oracle : SlideOracle)
    (english_slides arabic_slides : List (ℕ × List String)) (max_offset : ℚ) :
    (((find_best_slide_matches oracle english_slides arabic_slides max_offset).map
        (fun m => m.ar_slide)).dedup).length
      = (find_best_slide_matches oracle english_slides arabic_slides max_offset).length := by
  have h := slideFold_nodup oracle english_slides arabic_slides max_offset
    (sortAsc (english_slides.map (fun p => p.1))) ([], []) (by simp) (by simp)
  unfold find_best_slide_matches
  rw [List.dedup_eq_self.mpr h, List.length_map]

theorem find_key_of_nodup (l : List (ℕ × List String)) (k : ℕ) (v : List String)
    (hnd : (l.map Prod.fst).Nodup) (hm : (k, v) ∈ l) :
    l.find? (fun p => p.1 == k) = some (k, v) := by
  induction l with
  | nil => cases hm
  | cons p rest ih =>
    rcases List.mem_cons.mp hm with rfl | hm'
    · rw [List.find?_cons_of_pos _ (by simp)]
    · by_cases hk : p.1 = k
      · exfalso
        have : k ∈ rest.map Prod.fst :=
          List.mem_map.mpr ⟨(k, v), hm', rfl⟩
        rw [List.map_cons, List.nodup_cons] at hnd
        rw [hk] at hnd
        exact hnd.1 this
      · rw [List.find?_cons_of_neg _ (by simpa using hk)]
        rw [List.map_cons, List.nodup_cons] at hnd
        exact ih hnd.2 hm'

theorem slideFold_avoid (oracle : SlideOracle)
    (eng ara : List (ℕ × List String)) (off : ℚ) (n : ℕ)
    (hlk : lookupSlide eng n = []) (nums : List ℕ) :
    ∀ st : List SlideMapping × List ℕ,
      (∀ m ∈ st.1, m.en_slide ≠ n) →
      ∀ m ∈ (nums.foldl (slideMatchStep oracle eng ara off) st).1, m.en_slide ≠ n := by
  induction nums with
  | nil => exact fun st h => h
  | cons k rest ih =>
    intro st h
    rw [List.foldl_cons]
    rcases slideMatchStep_cases oracle eng ara off st k with heq | ⟨ar, conf, _, hfp, heq⟩
    · rw [heq]
      exact ih st h
    · rw [heq]
      apply ih
      intro m hm
      rcases List.mem_append.mp hm with hm' | hm'
      · exact h m hm'
      · rw [List.mem_singleton] at hm'
        subst hm'
        intro hkn
        simp only at hkn
        subst hkn
        rw [hlk] at hfp
        exact hfp rfl

/-- C9: every source slide with an empty phrase list is skipped by
`find_best_slide_matches` (its empty fingerprint short-circuits) and
appears in no returned `SlideMapping`. -/
theorem empty_source_slide_never_matched (oracle : SlideOracle)
    (english_slides arabic_slides : List (ℕ × List String)) (max_offset : ℚ)
    (n : ℕ) (hmem : (n, ([] : List String)) ∈ english_slides)
    (hnd : (english_slides.map Prod.fst).Nodup) :
    ∀ m ∈ find_best_slide_matches oracle english_slides arabic_slides max_offset,
      m.en_slide ≠ n := by
  have hlk : lookupSlide english_slides n = [] := by
    unfold lookupSlide
    rw [find_key_of_nodup english_slides n [] hnd hmem]
    rfl
  unfold find_best_slide_matches
  exact slideFold_avoid oracle english_slides arabic_slides max_offset n hlk
    (sortAsc (english_slides.map (fun p => p.1))) ([], []) (by simp)

/-- C9 witness: scenario B — slide 1 of the source corpus has zero
phrases and indeed appears as the source of no mapping. -/
theorem empty_source_slide_never_matched_witness :
    ((find_best_slide_matches noSlideOracle engB araB 10).map
      (fun m => m.en_slide)).all (fun k => k != 1) = true := by
  have T := empty_source_slide_never_matched noSlideOracle engB araB 10 1
    (by decide) (by decide)
  rw [List.all_eq_true]
  intro k hk
  rcases List.mem_map.mp hk with ⟨m, hm, rfl⟩
  simpa using T m hm

theorem parseMatchLine_some (en_texts ar_texts : List String) (line0 : List Char)
    (m : SentenceMatch) (h : parseMatchLine en_texts ar_texts line0 = some m) :
    0 ≤ m.en_index ∧ m.en_index < (en_texts.length : ℤ)
    ∧ 0 ≤ m.ar_index ∧ m.ar_index < (ar_texts.length : ℤ)
    ∧ m.confidence
        = (if containsSub "high".toList (lowerChars (trimChars line0)) then 9/10
           else if containsSub "medium".toList (lowerChars (trimChars line0)) then 6/10
           else if containsSub "low".toList (lowerChars (trimChars line0)) then 3/10
           else 5/10) := by
  simp only [parseMatchLine] at h
  split at h
  · exact absurd h (by simp)
  · split at h
    · exact absurd h (by simp)
    · split at h
      · split at h
        · rename_i hcond
          rw [Option.some.injEq] at h
          subst h
          exact ⟨hcond.1, hcond.2.1, hcond.2.2.1, hcond.2.2.2, rfl⟩
        · exact absurd h (by simp)
      · exact absurd h (by simp)

theorem structPick_mem (used : List ℕ) (en_words : ℕ) (l : List (ℕ × String)) :
    ∀ acc : Option (ℕ × String) × ℚ,
      (l.foldl (structPickStep used en_words) acc).1 = acc.1
      ∨ ∃ q ∈ l, (l.foldl (structPickStep used en_words) acc).1 = some q := by
  induction l with
  | nil =>
    intro acc
    left
    rfl
  | cons q rest ih =>
    intro acc
    rw [List.foldl_cons]
    have hcases : structPickStep used en_words acc q = acc
        ∨ ∃ sc, structPickStep used en_words acc q = (some q, sc) := by
      simp only [structPickStep]
      split_ifs <;> first | (left; rfl) | (right; exact ⟨_, rfl⟩)
    rcases hcases with hq | ⟨sc, hq⟩
    · rw [hq]
      rcases ih acc with h | ⟨q', hq', h⟩
      · left
        exact h
      · right
        exact ⟨q', List.mem_cons_of_mem q hq', h⟩
    · rw [hq]
      rcases ih (some q, sc) with h | ⟨q', hq', h⟩
      · right
        exact ⟨q, List.mem_cons_self q rest, h⟩
      · right
        exact ⟨q', List.mem_cons_of_mem q hq', h⟩

theorem structCommit_cases (st : List SentenceMatch × List ℕ) (p : ℕ × String)
    (b : Option (ℕ × String) × ℚ) :
    structCommit st p b = st
    ∨ ∃ q : ℕ × String, b.1 = some q
        ∧ structCommit st p b
            = (st.1 ++ [{ english := p.2, arabic := q.2,
                          en_index := (p.1 : ℤ), ar_index := (q.1 : ℤ),
                          confidence := b.2 * (4/10),
                          match_method := "structure_fallback" }],
               st.2 ++ [q.1]) := by
  obtain ⟨b1, b2⟩ := b
  cases b1 with
  | none => left; rfl
  | some q =>
    obtain ⟨ar_idx, ar_text⟩ := q
    by_cases hb : b2 > 3/10
    · right
      refine ⟨(ar_idx, ar_text), rfl, ?_⟩
      show (if b2 > 3/10 then _ else _) = _
      rw [if_pos hb]
    · left
      show (if b2 > 3/10 then _ else _) = _
      rw [if_neg hb]

theorem structMatchStep_cases (ar_texts : List String)
    (st : List SentenceMatch × List ℕ) (p : ℕ × String) :
    structMatchStep ar_texts st p = st
    ∨ ∃ q ∈ ar_texts.enum, ∃ sc : ℚ,
        structMatchStep ar_texts st p
          = (st.1 ++ [{ english := p.2, arabic := q.2,
                        en_index := (p.1 : ℤ), ar_index := (q.1 : ℤ),
                        confidence := sc,
                        match_method := "structure_fallback" }],
             st.2 ++ [q.1]) := by
  unfold structMatchStep
  rcases structCommit_cases st p
      (ar_texts.enum.foldl (structPickStep st.2 (wordCount p.2)) (none, 0))
    with h | ⟨q, hb, h⟩
  · left
    exact h
  · right
    refine ⟨q, ?_, _, h⟩
    rcases structPick_mem st.2 (wordCount p.2) ar_texts.enum (none, 0)
      with hn | ⟨q', hq', hsome⟩
    · rw [hb] at hn
      simp at hn
    · rw [hb] at hsome
      rw [Option.some.injEq] at hsome
      rw [hsome]
      exact hq'

theorem structFold_bounds (ar_texts : List String) (ps : List (ℕ × String)) (bound : ℕ) :
    ∀ st : List SentenceMatch × List ℕ,
      (∀ p ∈ ps, p.1 < bound) →
      (∀ m ∈ st.1, 0 ≤ m.en_index ∧ m.en_index < (bound : ℤ)
        ∧ 0 ≤ m.ar_index ∧ m.ar_index < (ar_texts.length : ℤ)) →
      ∀ m ∈ (ps.foldl (structMatchStep ar_texts) st).1,
        0 ≤ m.en_index ∧ m.en_index < (bound : ℤ)
        ∧ 0 ≤ m.ar_index ∧ m.ar_index < (ar_texts.length : ℤ) := by
  induction ps with
  | nil => exact fun st _ h => h
  | cons p rest ih =>
    intro st hps h
    rw [List.foldl_cons]
    apply ih _ (fun p' hp' => hps p' (List.mem_cons_of_mem _ hp'))
    rcases structMatchStep_cases ar_texts st p with heq | ⟨q, hq, sc, heq⟩
    · rw [heq]
      exact h
    · rw [heq]
      intro m hm
      rcases List.mem_append.mp hm with hm' | hm'
      · exact h m hm'
      · rw [List.mem_singleton] at hm'
        subst hm'
        have hp : p.1 < bound := hps p (List.mem_cons_self p rest)
        have hq1 : q.1 < ar_texts.length := by
          rw [List.mem_enum_iff_getElem?] at hq
          exact (List.getElem?_eq_some.mp hq).1
        dsimp only
        exact ⟨by positivity, by exact_mod_cast hp, by positivity, by exact_mod_cast hq1⟩

theorem match_by_structure_bounds (en_texts ar_texts : List String) :
    ∀ m ∈ match_by_structure en_texts ar_texts,
      0 ≤ m.en_index ∧ m.en_index < (en_texts.length : ℤ)
      ∧ 0 ≤ m.ar_index ∧ m.ar_index < (ar_texts.length : ℤ) := by
  unfold match_by_structure
  apply structFold_bounds ar_texts en_texts.enum en_texts.length
  · intro p hp
    rw [List.mem_enum_iff_getElem?] at hp
    exact (List.getElem?_eq_some.mp hp).1
  · simp

/-- C6: `match_sentences_within_slides` parses defensively: it is a total
function of the oracle response (never raises); every returned match has
in-bounds source and target indices; a parsed line's confidence is 0.9
when the line mentions "high", 0.6 for "medium", 0.3 for "low", 0.5
otherwise; and a line without the arrow structure is rejected, any
rejected line being skipped without disturbing the remaining lines. -/
theorem match_sentences_defensive (resp : Option String)
    (en_texts ar_texts : List String) :
    (∀ m ∈ match_sentences_within_slides resp en_texts ar_texts,
        0 ≤ m.en_index ∧ m.en_index < (en_texts.length : ℤ)
        ∧ 0 ≤ m.ar_index ∧ m.ar_index < (ar_texts.length : ℤ))
    ∧ (∀ (line : List Char) (m : SentenceMatch),
        parseMatchLine en_texts ar_texts line = some m →
        m.confidence
          = (if containsSub "high".toList (lowerChars (trimChars line)) then 9/10
             else if containsSub "medium".toList (lowerChars (trimChars line)) then 6/10
             else if containsSub "low".toList (lowerChars (trimChars line)) then 3/10
             else 5/10))
    ∧ (∀ line : List Char, containsSub "->".toList (trimChars line) = false →
        parseMatchLine en_texts ar_texts line = none)
    ∧ (∀ (bad : List Char) (rest : List (List Char)),
        parseMatchLine en_texts ar_texts bad = none →
        (bad :: rest).filterMap (parseMatchLine en_texts ar_texts)
          = rest.filterMap (parseMatchLine en_texts ar_texts)) := by
  refine ⟨?_, ?_, ?_, ?_⟩
  · unfold match_sentences_within_slides
    split_ifs with h0
    · intro m hm
      simp at hm
    · cases resp with
      | none => exact match_by_structure_bounds en_texts ar_texts
      | some r =>
        show ∀ m ∈ (if r = "" ∨ containsSub "NO_MATCHES".toList r.toList = true
            then match_by_structure en_texts ar_texts
            else (splitOnChar (Char.ofNat 10) (trimChars r.toList)).filterMap
              (parseMatchLine en_texts ar_texts)), _
        split_ifs with h1
        · exact match_by_structure_bounds en_texts ar_texts
        · intro m hm
          rw [List.mem_filterMap] at hm
          obtain ⟨line, _, hparse⟩ := hm
          have hb := parseMatchLine_some en_texts ar_texts line m hparse
          exact ⟨hb.1, hb.2.1, hb.2.2.1, hb.2.2.2.1⟩
  · intro line m h
    exact (parseMatchLine_some en_texts ar_texts line m h).2.2.2.2
  · intro line hline
    simp only [parseMatchLine]
    rw [if_pos ?_]
    intro hcontra
    rw [hline] at hcontra
    cases hcontra
  · intro bad rest h
    simp [List.filterMap_cons, h]

/-- C6 witness: the response line `EN:1 -> AR:2 (confidence: high)`
parses to the in-bounds pair (0, 1) with confidence 0.9, and a line with
no arrow is rejected. -/
theorem match_sentences_defensive_witness :
    ((0 : ℤ) ≤ 0 ∧ (0 : ℤ) < 1 ∧ (0 : ℤ) ≤ 1 ∧ (1 : ℤ) < 2)
    ∧ parseMatchLine ["a b"] ["x", "y z"] "garbage line".toList = none := by
  have T := match_sentences_defensive (some "EN:1 -> AR:2 (confidence: high)")
    ["a b"] ["x", "y z"]
  constructor
  · have hres : match_sentences_within_slides (some "EN:1 -> AR:2 (confidence: high)")
        ["a b"] ["x", "y z"]
        = [{ english := "a b", arabic := "y z", en_index := 0, ar_index := 1,
             confidence := 9/10, match_method := "llm_semantic" }] := rfl
    have hm := T.1 _ (hres ▸ List.mem_singleton.mpr rfl)
    exact hm
  · exact T.2.2.1 "garbage line".toList (by decide)

theorem scenarioA_mappings :
    find_best_slide_matches noSlideOracle engA araA 10
      = [{ en_slide := 1, ar_slide := 1, confidence := 5/10,
           en_texts := ["Hello world"], ar_texts := ["مرحبا بالعالم"] },
         { en_slide := 2, ar_slide := 2, confidence := 5/10,
           en_texts := ["Revenue grew 10%"], ar_texts := ["نمت الإيرادات 10%"] }] := by
  have hsortE : sortAsc (engA.map (fun p => p.1)) = [1, 2] := by decide
  have hsortA : sortAsc (araA.map (fun p => p.1)) = [1, 2] := by decide
  have hlkE1 : lookupSlide engA 1 = ["Hello world"] := by decide
  have hlkE2 : lookupSlide engA 2 = ["Revenue grew 10%"] := by decide
  have hlkA1 : lookupSlide araA 1 = ["مرحبا بالعالم"] := by decide
  have hlkA2 : lookupSlide araA 2 = ["نمت الإيرادات 10%"] := by decide
  have hfpH : get_slide_fingerprint ["Hello world"] = .mk 1 11 2 false false 1 0 0 := by decide
  have hfpR : get_slide_fingerprint ["Revenue grew 10%"] = .mk 1 16 3 true false 1 0 0 := by decide
  have hfpM : get_slide_fingerprint ["مرحبا بالعالم"] = .mk 1 13 2 false false 1 0 0 := by decide
  have hfpN : get_slide_fingerprint ["نمت الإيرادات 10%"] = .mk 1 17 3 true false 1 0 0 := by decide
  have hneH : ((Fingerprint.mk 1 11 2 false false 1 0 0) = Fingerprint.empty) = False := by simp
  have hneR : ((Fingerprint.mk 1 16 3 true false 1 0 0) = Fingerprint.empty) = False := by simp
  have hneM : ((Fingerprint.mk 1 13 2 false false 1 0 0) = Fingerprint.empty) = False := by simp
  have hneN : ((Fingerprint.mk 1 17 3 true false 1 0 0) = Fingerprint.empty) = False := by simp
  have hsHM : fingerprint_similarity (.mk 1 11 2 false false 1 0 0)
      (.mk 1 13 2 false false 1 0 0) = 1 := by
    norm_num [fingerprint_similarity, text_count_score, total_words_score,
      flag_score, length_dist_score]
  have hsHN : fingerprint_similarity (.mk 1 11 2 false false 1 0 0)
      (.mk 1 17 3 true false 1 0 0) = 22/27 := by
    norm_num [fingerprint_similarity, text_count_score, total_words_score,
      flag_score, length_dist_score]
  have hsRN : fingerprint_similarity (.mk 1 16 3 true false 1 0 0)
      (.mk 1 17 3 true false 1 0 0) = 1 := by
    norm_num [fingerprint_similarity, text_count_score, total_words_score,
      flag_score, length_dist_score]
  have hval11 : validate_slide_correspondence noSlideOracle 1 ["Hello world"] 1
      ["مرحبا بالعالم"] = (true, 5/10, "Similar structure (fingerprint fallback)") := by
    norm_num [validate_slide_correspondence, noSlideOracle, slideFallback,
      hfpH, hfpM, hsHM]
  have hval12 : validate_slide_correspondence noSlideOracle 1 ["Hello world"] 2
      ["نمت الإيرادات 10%"] = (true, 5/10, "Similar structure (fingerprint fallback)") := by
    norm_num [validate_slide_correspondence, noSlideOracle, slideFallback,
      hfpH, hfpN, hsHN]
  have hval22 : validate_slide_correspondence noSlideOracle 2 ["Revenue grew 10%"] 2
      ["نمت الإيرادات 10%"] = (true, 5/10, "Similar structure (fingerprint fallback)") := by
    norm_num [validate_slide_correspondence, noSlideOracle, slideFallback,
      hfpR, hfpN, hsRN]
  have hcand1 : slideCandidates araA [] 1 (.mk 1 11 2 false false 1 0 0) 10
      = [{ ar_num := 1, fp_sim := 1, position_diff := 0, combined_score := 12/10 },
         { ar_num := 2, fp_sim := 22/27, position_diff := 1, combined_score := 1343/1350 }] := by
    norm_num [slideCandidates, hsortA, hlkA1, hlkA2,
      List.filterMap_cons, List.filterMap_nil, hfpM, hfpN, hneM, hneN, hsHM, hsHN, max_def]
  have hcand2 : slideCandidates araA [1] 2 (.mk 1 16 3 true false 1 0 0) 10
      = [{ ar_num := 2, fp_sim := 1, position_diff := 0, combined_score := 12/10 }] := by
    norm_num [slideCandidates, hsortA, hlkA1, hlkA2,
      List.filterMap_cons, List.filterMap_nil, hfpM, hfpN, hneM, hneN, hsRN, max_def]
  have hstep1 : slideMatchStep noSlideOracle engA araA 10 ([], []) 1
      = ([{ en_slide := 1, ar_slide := 1, confidence := 5/10,
            en_texts := ["Hello world"], ar_texts := ["مرحبا بالعالم"] }], [1]) := by
    norm_num [slideMatchStep, slideCommit, slidePickStep, hlkE1, hlkA1, hlkA2,
      hfpH, hneH, hcand1, sortDescBy, insertDescBy, hval11, hval12]
  have hstep2 : slideMatchStep noSlideOracle engA araA 10
      ([{ en_slide := 1, ar_slide := 1, confidence := 5/10,
          en_texts := ["Hello world"], ar_texts := ["مرحبا بالعالم"] }], [1]) 2
      = ([{ en_slide := 1, ar_slide := 1, confidence := 5/10,
            en_texts := ["Hello world"], ar_texts := ["مرحبا بالعالم"] },
          { en_slide := 2, ar_slide := 2, confidence := 5/10,
            en_texts := ["Revenue grew 10%"], ar_texts := ["نمت الإيرادات 10%"] }], [1, 2]) := by
    norm_num [slideMatchStep, slideCommit, slidePickStep, hlkE2, hlkA2,
      hfpR, hneR, hcand2, sortDescBy, insertDescBy, hval22]
  unfold find_best_slide_matches
  rw [hsortE, List.foldl_cons, hstep1, List.foldl_cons, hstep2, List.foldl_nil]

theorem scenarioA_candidates :
    align_candidates noSlideOracle noSentOracle engA araA
      = [{ english := "Hello world", arabic := "مرحبا بالعالم",
           en_slide := 1, ar_slide := 1, confidence := 6/35,
           alignment_method := "structure_fallback",
           slide_match_confidence := 5/10, sentence_match_confidence := 12/35,
           validated := false, validation_reason := "" },
         { english := "Revenue grew 10%", arabic := "نمت الإيرادات 10%",
           en_slide := 2, ar_slide := 2, confidence := 6/35,
           alignment_method := "structure_fallback",
           slide_match_confidence := 5/10, sentence_match_confidence := 12/35,
           validated := false, validation_reason := "" }] := by
  have hw1 : wordCount "Hello world" = 2 := by decide
  have hw2 : wordCount "مرحبا بالعالم" = 2 := by decide
  have hw3 : wordCount "Revenue grew 10%" = 3 := by decide
  have hw4 : wordCount "نمت الإيرادات 10%" = 3 := by decide
  have hmbs1 : match_by_structure ["Hello world"] ["مرحبا بالعالم"]
      = [{ english := "Hello world", arabic := "مرحبا بالعالم", en_index := 0,
           ar_index := 0, confidence := 12/35, match_method := "structure_fallback" }] := by
    norm_num [match_by_structure, structMatchStep, structCommit, structPickStep,
      List.enum, List.enumFrom, hw1, hw2, abs_of_nonneg]
  have hmbs2 : match_by_structure ["Revenue grew 10%"] ["نمت الإيرادات 10%"]
      = [{ english := "Revenue grew 10%", arabic := "نمت الإيرادات 10%", en_index := 0,
           ar_index := 0, confidence := 12/35, match_method := "structure_fallback" }] := by
    norm_num [match_by_structure, structMatchStep, structCommit, structPickStep,
      List.enum, List.enumFrom, hw3, hw4, abs_of_nonneg]
  have hms1 : match_sentences_within_slides
      (noSentOracle ["Hello world"] ["مرحبا بالعالم"]) ["Hello world"] ["مرحبا بالعالم"]
      = [{ english := "Hello world", arabic := "مرحبا بالعالم", en_index := 0,
           ar_index := 0, confidence := 12/35, match_method := "structure_fallback" }] := by
    norm_num [match_sentences_within_slides, noSentOracle, hmbs1]
  have hms2 : match_sentences_within_slides
      (noSentOracle ["Revenue grew 10%"] ["نمت الإيرادات 10%"])
      ["Revenue grew 10%"] ["نمت الإيرادات 10%"]
      = [{ english := "Revenue grew 10%", arabic := "نمت الإيرادات 10%", en_index := 0,
           ar_index := 0, confidence := 12/35, match_method := "structure_fallback" }] := by
    norm_num [match_sentences_within_slides, noSentOracle, hmbs2]
  unfold align_candidates
  rw [scenarioA_mappings, List.foldl_cons]
  norm_num [hms1, hms2]

/-- C2 counterexample: in scenario A with the oracle unconfigured, the
structural-fallback phrase matches each carry confidence 12/35
(= (6/7)·0.4 ≈ 0.343), not the claimed 0.2. -/
theorem scenarioA_confidence_counterexample :
    ((align_candidates noSlideOracle noSentOracle engA araA).map
      (fun c => c.sentence_match_confidence)) = [12/35, 12/35]
    ∧ ¬ ((12 : ℚ)/35 = 2/10) := by
  constructor
  · rw [scenarioA_candidates]
    rfl
  · norm_num

/-- C2 (amended): with source corpus `{1: ["Hello world"],
2: ["Revenue grew 10%"]}`, target corpus `{1: ["مرحبا بالعالم"],
2: ["نمت الإيرادات 10%"]}` and the oracle unconfigured, the pipeline
deterministically produces exactly 2 slide mappings at confidence 0.5
each (fingerprint fallback), and the phrase matches come from the
structural fallback with per-pair match confidence 12/35 — the
structural score 6/7 scaled by 0.4 — giving combined candidate
confidence 6/35. -/
theorem scenarioA_amended :
    ((find_best_slide_matches noSlideOracle engA araA 10).map
      (fun m => (m.en_slide, m.ar_slide, m.confidence))) = [(1, 1, 5/10), (2, 2, 5/10)]
    ∧ ((align_candidates noSlideOracle noSentOracle engA araA).map
      (fun c => (c.alignment_method, c.sentence_match_confidence, c.confidence)))
        = [("structure_fallback", 12/35, 6/35), ("structure_fallback", 12/35, 6/35)] := by
  constructor
  · rw [scenarioA_mappings]
    rfl
  · rw [scenarioA_candidates]
    rfl

end Alignment
